import Mathlib

/-!
Verification of the Job Orchestration and Progress Streaming subsystem of
the mlx-video-UI repository. The repository source available here is the
Next.js frontend: the API client (lib/api.ts), the generation page
(video-generator.tsx), the training page, the parameter panel and the
progress indicator. The Python FastAPI backend (job registry, event
broadcaster, worker adapter) is not part of the source tree, so backend
behaviour is modelled from the specification where a claim requires it;
every such definition carries a doc comment starting with
"Modelled from the spec:".

Numbers that are floating point in TypeScript are modelled as rationals;
machine integer overflow plays no role at the value ranges involved.
-/

namespace MlxVideo

/-! ## String utilities

TypeScript string containment (`String.prototype.includes`) and
lower-casing (`toLowerCase`), modelled over lists of characters. -/

/-- Decides whether the first list of characters is a prefix of the second,
mirroring the character-by-character comparison used by substring search. -/
def isPrefixChars : List Char → List Char → Bool
  | [], _ => true
  | _ :: _, [] => false
  | a :: as, b :: bs => a = b && isPrefixChars as bs

/-- `containsChars pat s` decides whether `pat` occurs as a contiguous
substring of `s`; this models `s.includes(pat)` in TypeScript. -/
def containsChars (pat : List Char) : List Char → Bool
  | [] => isPrefixChars pat []
  | c :: rest => isPrefixChars pat (c :: rest) || containsChars pat rest

/-- Models `s.toLowerCase()` for the ASCII text the worker emits. -/
def lowerChars (s : List Char) : List Char := s.map Char.toLower

/-! ## Status enumerations (lib/api.ts)

`GenerationJob.status` is the union type
`"pending" | "processing" | "completed" | "error"` and
`TrainingJob.status` is
`"pending" | "training" | "completed" | "error" | "stopped"`. -/

/-- The `status` union of `GenerationJob` in lib/api.ts. -/
inductive GenStatus where
  | pending
  | processing
  | completed
  | error
  deriving DecidableEq, Repr

/-- The string literal each `GenStatus` constructor embeds. -/
def genStatusStr : GenStatus → String
  | .pending => "pending"
  | .processing => "processing"
  | .completed => "completed"
  | .error => "error"

/-- All values of the generation status union, in declaration order. -/
def genStatusValues : List String :=
  [GenStatus.pending, GenStatus.processing, GenStatus.completed,
    GenStatus.error].map genStatusStr

/-- The `status` union of `TrainingJob` in lib/api.ts. -/
inductive TrainStatus where
  | pending
  | training
  | completed
  | error
  | stopped
  deriving DecidableEq, Repr

/-- The string literal each `TrainStatus` constructor embeds. -/
def trainStatusStr : TrainStatus → String
  | .pending => "pending"
  | .training => "training"
  | .completed => "completed"
  | .error => "error"
  | .stopped => "stopped"

/-- All values of the training status union, in declaration order. -/
def trainStatusValues : List String :=
  [TrainStatus.pending, TrainStatus.training, TrainStatus.completed,
    TrainStatus.error, TrainStatus.stopped].map trainStatusStr

/-- The five status names the specification asserts
(pending, running, completed, error, stopped). This definition follows the
words of the spec, for comparison with the unions taken from the source. -/
def specClaimedStatusNames : List String :=
  ["pending", "running", "completed", "error", "stopped"]

/-- `isGenerating` in video-generator.tsx: the client treats exactly
`processing` and `pending` as in-flight generation states. -/
def isGenerating (s : GenStatus) : Bool :=
  s = GenStatus.processing || s = GenStatus.pending

/-- `isTraining` in the training form: the client treats exactly
`training` and `pending` as in-flight training states. -/
def isTrainingActive (s : TrainStatus) : Bool :=
  s = TrainStatus.training || s = TrainStatus.pending

/-! ## Progress indicator (progress-indicator.tsx)

`getCurrentStepIndex` infers the coarse phase (0 = Initializing,
1 = Denoising, 2 = Decoding, 3 = Finalizing) from the free-text status
line, falling back to progress thresholds 0 / 10 / 85 / 95 when no
keyword matches. -/

/-- `getCurrentStepIndex` from progress-indicator.tsx. The status line is
lower-cased; the keyword checks run from the most advanced phase down to
the least, and when none matches the step index falls back to the
progress thresholds of the `steps` table (0, 10, 85, 95), scanned from
the highest threshold down. -/
def getCurrentStepIndex (currentStep : Option (List Char)) (progress : ℚ) : Nat :=
  let stepText := lowerChars (currentStep.getD [])
  if containsChars "saving".data stepText || containsChars "finaliz".data stepText ||
      containsChars "mux".data stepText then 3
  else if containsChars "decod".data stepText ||
      containsChars "streaming frames".data stepText then 2
  else if containsChars "denois".data stepText || containsChars "stage 1".data stepText ||
      containsChars "stage 2".data stepText then 1
  else if containsChars "load".data stepText || containsChars "encod".data stepText then 0
  else if progress ≥ 95 then 3
  else if progress ≥ 85 then 2
  else if progress ≥ 10 then 1
  else 0

/-- The keyword markers that map a status line to each phase index,
exactly the keyword groups tested by `getCurrentStepIndex`. -/
def phaseMarkers : Nat → List (List Char)
  | 0 => ["load".data, "encod".data]
  | 1 => ["denois".data, "stage 1".data, "stage 2".data]
  | 2 => ["decod".data, "streaming frames".data]
  | 3 => ["saving".data, "finaliz".data, "mux".data]
  | _ => []

/-- A status line carries the marker of phase `i` when one of that phase
keyword groups occurs in it. -/
def hasPhaseMarker (text : List Char) (i : Nat) : Bool :=
  (phaseMarkers i).any (fun p => containsChars p text)

/-! ## Progress messages and the generation client (lib/api.ts, part of
video-generator.tsx)

`ProgressUpdate` is the typed message pushed over the per-job WebSocket.
The generation page keeps React state (status, progress, currentStep,
error, videoPath) and updates it in the `connectWebSocket` callback of
`handleGenerate`. -/

/-- The `type` union of `ProgressUpdate` in lib/api.ts:
progress, status, complete or error. -/
inductive UpdateType where
  | progress
  | status
  | complete
  | error
  deriving DecidableEq, Repr

/-- The `ProgressUpdate` message of lib/api.ts. Optional numeric fields
are rationals; optional strings stay strings. -/
structure ProgressUpdate where
  type : UpdateType
  job_id : String
  progress : Option ℚ := none
  current_step : Option String := none
  output_path : Option String := none
  errorMsg : Option String := none
  deriving DecidableEq, Repr

/-- The React state of the generation page that the WebSocket callback
mutates: status, progress, currentStep, error and videoPath. -/
structure GenClientState where
  status : GenStatus
  progress : ℚ
  currentStep : String
  errorMsg : Option String
  videoPath : Option String
  deriving DecidableEq, Repr

/-- The state `handleGenerate` establishes before opening the stream:
status pending, progress 0, step label "Starting generation...", no
error, no video path. -/
def initGenerateState : GenClientState :=
  { status := .pending
    progress := 0
    currentStep := "Starting generation..."
    errorMsg := none
    videoPath := none }

/-- The `onMessage` callback installed by `handleGenerate` in
video-generator.tsx: a progress message sets status processing and
overwrites progress (defaulting to 0) and the step label (defaulting to
"Processing..."); a complete message sets status completed, progress 100
and the video path; an error message sets status error and the error
text; a status message matches no branch and leaves the state alone. -/
def onGenerateMessage (s : GenClientState) (u : ProgressUpdate) : GenClientState :=
  match u.type with
  | .progress =>
      { s with
        status := .processing
        progress := u.progress.getD 0
        currentStep := u.current_step.getD "Processing..." }
  | .complete =>
      { s with status := .completed, progress := 100, videoPath := u.output_path }
  | .error => { s with status := .error, errorMsg := u.errorMsg }
  | .status => s

/-- One low-level WebSocket event as seen by `connectWebSocket`:
a raw message (whose JSON either parses to a `ProgressUpdate` or does
not), a transport error, or a close. -/
inductive WsEvent where
  | message (parsed : Option ProgressUpdate)
  | wsError
  | wsClose
  deriving DecidableEq, Repr

/-- The combined transition of `connectWebSocket` (lib/api.ts) and the
callbacks `handleGenerate` passes it: a message whose JSON fails to parse
is caught and only logged; a parsed message goes to `onGenerateMessage`;
the error callback sets the error text to "Connection lost"; the close
callback is the empty function. -/
def clientStep (s : GenClientState) (e : WsEvent) : GenClientState :=
  match e with
  | .message none => s
  | .message (some u) => onGenerateMessage s u
  | .wsError => { s with errorMsg := some "Connection lost" }
  | .wsClose => s

/-- Folds a list of WebSocket events through the client transition. -/
def clientRun (s : GenClientState) (es : List WsEvent) : GenClientState :=
  es.foldl clientStep s

/-! ## Frame count arithmetic (parameter-panel.tsx)

The frames slider runs from 9 to 4097 in steps of 8 and snaps its value
through `1 + Math.round((v - 1) / 8) * 8`; the numeric input applies the
same snap and then clamps into `[9, 4097]`. -/

/-- JavaScript `Math.round`: half-way values round toward positive
infinity, so `Math.round x = ⌊x + 1/2⌋`. -/
def jsRound (q : ℚ) : ℤ := ⌊q + 1 / 2⌋

/-- The `onValueChange` handler of the frames slider:
`1 + Math.round((v - 1) / 8) * 8`. -/
def sliderFramesUpdate (v : ℚ) : ℤ := 1 + jsRound ((v - 1) / 8) * 8

/-- The `onChange` handler of the custom frames numeric input for an
input that parsed to the integer `v`:
`Math.max(9, Math.min(4097, 1 + Math.round((v - 1) / 8) * 8))`. -/
def inputFramesUpdate (v : ℤ) : ℤ :=
  max 9 (min 4097 (1 + jsRound (((v : ℚ) - 1) / 8) * 8))

/-- The positions the frames slider can take: min 9, max 4097, step 8. -/
def sliderFramePositions : List ℚ :=
  (List.range 512).map (fun k : ℕ => 9 + 8 * (k : ℚ))

/-! ## HTTP client functions (lib/api.ts)

Each `fetch` call is modelled by the shape of the response it may
receive; the client function then either returns a value or throws,
which the embedding renders as `Except` with the thrown message. -/

/-- The body `startGeneration` receives on success: the `GenerationJob`
record of lib/api.ts, restricted to the fields the claims touch. -/
structure GenerationJobRec where
  job_id : String
  status : GenStatus
  deriving DecidableEq, Repr

/-- The outcome of the POST to `/api/generate` as the client sees it:
an ok response carrying the job body, or a non-ok response whose JSON
body may carry a `detail` field. -/
inductive StartResponse where
  | success (job : GenerationJobRec)
  | failure (detail : Option String)
  deriving DecidableEq, Repr

/-- `startGeneration` in lib/api.ts: on a non-ok response it throws
`Error(error.detail or "Failed to start generation")`, otherwise it
returns the parsed job. -/
def startGeneration : StartResponse → Except String GenerationJobRec
  | .success j => .ok j
  | .failure d => .error (d.getD "Failed to start generation")

/-- A fetch response for an endpoint that returns no interesting body:
only `ok` and the optional error `detail` matter. -/
structure PlainResponse where
  ok : Bool
  detail : Option String
  deriving DecidableEq, Repr

/-- `stopTraining` in lib/api.ts: POST to the stop endpoint, throwing
`Error(error.detail or "Failed to stop training")` when not ok. -/
def stopTraining (r : PlainResponse) : Except String Unit :=
  if r.ok then .ok () else .error (r.detail.getD "Failed to stop training")

/-- `deleteVideo` in lib/api.ts: DELETE on the gallery entry, throwing
`Error(error.detail or "Failed to delete video")` when not ok. -/
def deleteVideo (r : PlainResponse) : Except String Unit :=
  if r.ok then .ok () else .error (r.detail.getD "Failed to delete video")

/-- A gallery video as listed by `/api/gallery`, restricted to the
required fields of the `GalleryVideo` interface. -/
structure GalleryVideo where
  id : String
  filename : String
  path : String
  deriving DecidableEq, Repr

/-- A LoRA entry as listed by `/api/loras`. -/
structure LoraItem where
  name : String
  path : String
  deriving DecidableEq, Repr

/-- The response of `/api/gallery`: `ok`, and the optional `videos`
array of the JSON body (absent when the body lacks the field). -/
structure GalleryResponse where
  ok : Bool
  videos : Option (List GalleryVideo)
  deriving DecidableEq, Repr

/-- The response of `/api/checkpoints` with its optional `checkpoints`
array. -/
structure CheckpointsResponse where
  ok : Bool
  checkpoints : Option (List String)
  deriving DecidableEq, Repr

/-- The response of `/api/loras` with its optional `loras` array. -/
structure LorasResponse where
  ok : Bool
  loras : Option (List LoraItem)
  deriving DecidableEq, Repr

/-- `listVideos` in lib/api.ts: a non-ok response returns the empty
list; otherwise `data.videos or []`. -/
def listVideos (r : GalleryResponse) : List GalleryVideo :=
  if r.ok then r.videos.getD [] else []

/-- `listCheckpoints` in lib/api.ts: a non-ok response returns the empty
list; otherwise `data.checkpoints or []`. -/
def listCheckpoints (r : CheckpointsResponse) : List String :=
  if r.ok then r.checkpoints.getD [] else []

/-- `listLoras` in lib/api.ts: a non-ok response returns the empty list;
otherwise `data.loras or []`. -/
def listLoras (r : LorasResponse) : List LoraItem :=
  if r.ok then r.loras.getD [] else []

/-! ## Training client (training form) -/

/-- The slice of the training form state that `handleStopTraining`
touches: the job status and the error text. -/
structure TrainClientState where
  status : TrainStatus
  errorMsg : Option String
  deriving DecidableEq, Repr

/-- `handleStopTraining` in the training form, given the response to the
stop request: on success it sets status stopped; when `stopTraining`
throws, it records the message and leaves the status alone. -/
def handleStopTraining (s : TrainClientState) (r : PlainResponse) : TrainClientState :=
  match stopTraining r with
  | .ok _ => { s with status := .stopped }
  | .error msg => { s with errorMsg := some msg }

/-! ## Spec-modelled backend

The FastAPI backend is outside the available source tree. The following
definitions are built from the words of the specification so the claims
that go through the backend can be settled against an explicit model. -/

/-- Modelled from the spec: the job state machine of the backend Job
Controller, section 4.4, with states pending, running, completed, error
and stopped. The backend source is not under src. -/
inductive SpecStatus where
  | pending
  | running
  | completed
  | error
  | stopped
  deriving DecidableEq, Repr

/-- Modelled from the spec: the terminal states are completed, error and
stopped; pending and running are the only non-terminal ones. -/
def specTerminal : SpecStatus → Bool
  | .completed => true
  | .error => true
  | .stopped => true
  | .pending => false
  | .running => false

/-- Modelled from the spec: the materialized job record held by the Job
Registry — status, last progress, step label, output path and error. -/
structure SpecJob where
  id : String
  status : SpecStatus
  progress : ℚ
  currentStep : String
  outputPath : Option String
  errorMsg : Option String
  deriving DecidableEq, Repr

/-- Modelled from the spec: cancellation at the registry. A job in
pending or running transitions to stopped and the transition is
reported; a job already terminal is left exactly as it is and no
transition is reported (idempotent, not an error). The returned flag
records whether a stopped transition was produced by this call. -/
def cancelJob (j : SpecJob) : SpecJob × Bool :=
  if specTerminal j.status then (j, false)
  else ({ j with status := .stopped }, true)

/-- Modelled from the spec: the in-process Job Registry, a map from job
id to the materialized record. -/
def SpecRegistry : Type := String → Option SpecJob

/-- Modelled from the spec: the synthesized current-state event the
Event Broadcaster builds from the registry record for a newly joining
subscriber. -/
def snapshotEvent (j : SpecJob) : ProgressUpdate :=
  { type := .progress
    job_id := j.id
    progress := some j.progress
    current_step := some j.currentStep
    output_path := j.outputPath
    errorMsg := j.errorMsg }

/-- Modelled from the spec: the single synthetic terminal event replayed
to a subscriber that attaches to an already terminal job. -/
def terminalEvent (j : SpecJob) : ProgressUpdate :=
  { type := if j.status = SpecStatus.error then .error else .complete
    job_id := j.id
    progress := some j.progress
    current_step := some j.currentStep
    output_path := j.outputPath
    errorMsg := j.errorMsg }

/-- Modelled from the spec: `subscribe` on the Event Broadcaster.
An unknown job id yields no stream (NotFound); a terminal job yields the
single synthetic terminal event and the stream ends; otherwise the
synthesized current-state snapshot is delivered first and only then the
live events. -/
def subscribe (reg : SpecRegistry) (jobId : String)
    (live : List ProgressUpdate) : Option (List ProgressUpdate) :=
  match reg jobId with
  | none => none
  | some j =>
      if specTerminal j.status then some [terminalEvent j]
      else some (snapshotEvent j :: live)

/-- Modelled from the spec: job submission at the Job Controller. A
request that fails validation is rejected synchronously with its failure
detail and no registry entry is created; a validated request allocates a
fresh pending entry and answers with the job id and status pending
without waiting for completion. -/
def submitJob (reg : SpecRegistry) (valid : Bool) (newId : String)
    (failureDetail : String) : SpecRegistry × StartResponse :=
  if valid then
    (fun k => if k = newId then
        some { id := newId, status := .pending, progress := 0,
               currentStep := "", outputPath := none, errorMsg := none }
      else reg k,
     .success { job_id := newId, status := .pending })
  else (reg, .failure (some failureDetail))

/-- Modelled from the spec: the Controller accepts status transitions
only out of non-terminal states; terminal states are absorbing and a
duplicate terminal signal is coalesced into the first one observed. -/
def applyStatusEvent (j : SpecJob) (newStatus : SpecStatus) : SpecJob :=
  if specTerminal j.status then j else { j with status := newStatus }

/-- Modelled from the spec: the line-oriented Progress Parser of the
backend (not under src). A raw worker line is recognized when it carries
one of the free-text phase markers, in which case the inferred phase is
the most advanced one present; any other line is unrecognized and yields
no delta. -/
def parseLine (line : List Char) : Option Nat :=
  let t := lowerChars line
  if hasPhaseMarker t 3 then some 3
  else if hasPhaseMarker t 2 then some 2
  else if hasPhaseMarker t 1 then some 1
  else if hasPhaseMarker t 0 then some 0
  else none

/-- Modelled from the spec: feeding one raw line into the parser-driven
phase state; an unrecognized line is absorbed as a no-op. -/
def parserStep (phase : Nat) (line : List Char) : Nat :=
  (parseLine line).getD phase

/-- The sequence of progress values the generation page displays while a
list of messages arrives: the value before any message, then the value
after each one. -/
def progressTrace (s : GenClientState) (us : List ProgressUpdate) : List ℚ :=
  (us.scanl onGenerateMessage s).map GenClientState.progress

/-! ## Supporting lemmas -/

/-- The keyword conditions of `getCurrentStepIndex` are exactly the
phase-marker tests, taken from the most advanced phase down. -/
lemma getCurrentStepIndex_eq_markers (cs : Option (List Char)) (prog : ℚ) :
    getCurrentStepIndex cs prog =
      (if hasPhaseMarker (lowerChars (cs.getD [])) 3 then 3
       else if hasPhaseMarker (lowerChars (cs.getD [])) 2 then 2
       else if hasPhaseMarker (lowerChars (cs.getD [])) 1 then 1
       else if hasPhaseMarker (lowerChars (cs.getD [])) 0 then 0
       else if prog ≥ 95 then 3
       else if prog ≥ 85 then 2
       else if prog ≥ 10 then 1
       else 0) := by
  simp only [getCurrentStepIndex, hasPhaseMarker, phaseMarkers, List.any_cons, List.any_nil,
    Bool.or_false, Bool.or_assoc]

/-! ## Claim C4 -/

/-- Claim C4: the free-text phase heuristic of the progress indicator is
checked from the most advanced phase down, so whenever a status line
carries the marker of some phase the inferred step index is at least
that phase, and when it carries markers of several phases the inferred
index is exactly the most advanced one present — a less advanced keyword
in the same line can never regress the inferred phase. -/
theorem C4_phase_marker_ordering (cs : Option (List Char)) (prog : ℚ) (j : Nat)
    (hj : j ≤ 3)
    (hmark : hasPhaseMarker (lowerChars (cs.getD [])) j = true) :
    j ≤ getCurrentStepIndex cs prog ∧
      ((∀ k : Nat, k ≤ 3 → hasPhaseMarker (lowerChars (cs.getD [])) k = true → k ≤ j) →
        getCurrentStepIndex cs prog = j) := by
  rw [getCurrentStepIndex_eq_markers]
  set t := lowerChars (cs.getD []) with ht
  interval_cases j
  · by_cases h3 : hasPhaseMarker t 3 = true
    · exact ⟨by simp [h3], fun hmax => absurd (hmax 3 (by norm_num) h3) (by norm_num)⟩
    · by_cases h2 : hasPhaseMarker t 2 = true
      · exact ⟨by simp [h3, h2], fun hmax => absurd (hmax 2 (by norm_num) h2) (by norm_num)⟩
      · by_cases h1 : hasPhaseMarker t 1 = true
        · exact ⟨by simp [h3, h2, h1],
            fun hmax => absurd (hmax 1 (by norm_num) h1) (by norm_num)⟩
        · exact ⟨by simp [h3, h2, h1, hmark], fun _ => by simp [h3, h2, h1, hmark]⟩
  · by_cases h3 : hasPhaseMarker t 3 = true
    · exact ⟨by simp [h3], fun hmax => absurd (hmax 3 (by norm_num) h3) (by norm_num)⟩
    · by_cases h2 : hasPhaseMarker t 2 = true
      · exact ⟨by simp [h3, h2], fun hmax => absurd (hmax 2 (by norm_num) h2) (by norm_num)⟩
      · exact ⟨by simp [h3, h2, hmark], fun _ => by simp [h3, h2, hmark]⟩
  · by_cases h3 : hasPhaseMarker t 3 = true
    · exact ⟨by simp [h3], fun hmax => absurd (hmax 3 (by norm_num) h3) (by norm_num)⟩
    · exact ⟨by simp [h3, hmark], fun _ => by simp [h3, hmark]⟩
  · exact ⟨by simp [hmark], fun _ => by simp [hmark]⟩

/-- Witness for C4 at a concrete status line carrying both a denoising
and a decoding marker: the decoding phase (index 2) wins. -/
theorem C4_phase_marker_ordering_witness :
    2 ≤ getCurrentStepIndex (some "Denoising then Decoding".data) 0 ∧
      getCurrentStepIndex (some "Denoising then Decoding".data) 0 = 2 := by
  have h := C4_phase_marker_ordering (some "Denoising then Decoding".data) 0 2
    (by norm_num) (by decide)
  exact ⟨h.1, h.2 (by intro k hk hm; interval_cases k <;> revert hm <;> decide)⟩

/-! ## Claim C3 -/

/-- Counterexample to claim C3: the status of a `GenerationJob` can be
the value "processing", which is not among the five values the claim
allows (pending, running, completed, error, stopped); conversely the
generation status union has no "stopped" value and the training union
uses "training" rather than "running". -/
theorem C3_counterexample :
    genStatusStr GenStatus.processing ∈ genStatusValues ∧
      genStatusStr GenStatus.processing ∉ specClaimedStatusNames ∧
      "stopped" ∉ genStatusValues ∧
      trainStatusStr TrainStatus.training ∉ specClaimedStatusNames := by
  decide

/-- Claim C3 as amended: a `GenerationJob` status takes exactly the four
values pending, processing, completed and error, a `TrainingJob` status
takes exactly the five values pending, training, completed, error and
stopped; the client treats precisely pending and processing
(respectively pending and training) as non-terminal; and in the
spec-modelled registry state machine a terminal record absorbs every
further status event. -/
theorem C3_amended :
    (∀ g : GenStatus, genStatusStr g ∈ genStatusValues) ∧
      (∀ t : TrainStatus, trainStatusStr t ∈ trainStatusValues) ∧
      (∀ g : GenStatus, isGenerating g = true ↔
        g = GenStatus.pending ∨ g = GenStatus.processing) ∧
      (∀ t : TrainStatus, isTrainingActive t = true ↔
        t = TrainStatus.pending ∨ t = TrainStatus.training) ∧
      (∀ (j : SpecJob) (ns : SpecStatus), specTerminal j.status = true →
        applyStatusEvent j ns = j) := by
  refine ⟨?_, ?_, ?_, ?_, ?_⟩
  · intro g; cases g <;> simp [genStatusStr, genStatusValues]
  · intro t; cases t <;> simp [trainStatusStr, trainStatusValues]
  · intro g; cases g <;> simp [isGenerating]
  · intro t; cases t <;> simp [isTrainingActive]
  · intro j ns h; simp [applyStatusEvent, h]

/-- Witness for the amended C3 at a completed registry record: a further
status event leaves it untouched. -/
theorem C3_amended_witness :
    applyStatusEvent
      { id := "job-1", status := SpecStatus.completed, progress := 1,
        currentStep := "done", outputPath := some "out.mp4", errorMsg := none }
      SpecStatus.running
      = { id := "job-1", status := SpecStatus.completed, progress := 1,
          currentStep := "done", outputPath := some "out.mp4", errorMsg := none } :=
  C3_amended.2.2.2.2
    { id := "job-1", status := SpecStatus.completed, progress := 1,
      currentStep := "done", outputPath := some "out.mp4", errorMsg := none }
    SpecStatus.running (by decide)

/-! ## Claim C1 -/

/-- After a progress message the displayed progress is exactly the value
the message carried, defaulting to 0 when the field is absent. -/
lemma onGenerateMessage_progress (s : GenClientState) (u : ProgressUpdate)
    (h : u.type = UpdateType.progress) :
    (onGenerateMessage s u).progress = u.progress.getD 0 := by
  simp [onGenerateMessage, h]

/-- Over a run of progress messages the displayed trace is the starting
value followed by the values the messages carried. -/
lemma progressTrace_eq (s : GenClientState) (us : List ProgressUpdate)
    (h : ∀ u ∈ us, u.type = UpdateType.progress) :
    progressTrace s us = s.progress :: us.map (fun u => u.progress.getD 0) := by
  induction us generalizing s with
  | nil => simp [progressTrace]
  | cons u us ih =>
      have hu : u.type = UpdateType.progress := h u (List.mem_cons_self u us)
      have ht := ih (onGenerateMessage s u) (fun v hv => h v (List.mem_cons_of_mem u hv))
      simp only [progressTrace, List.scanl_cons, List.singleton_append,
        List.map_cons] at ht ⊢
      rw [ht, onGenerateMessage_progress s u hu]

/-- Counterexample to claim C1: the WebSocket handler of the generation
page displays the progress value of the latest event unclamped, so two
progress events in the same phase with values 50 then 30 make the
displayed value drop from 50 to 30 while the status and the step label
(hence the phase) are unchanged. -/
theorem C1_counterexample :
    (onGenerateMessage
        (onGenerateMessage initGenerateState
          { type := UpdateType.progress, job_id := "job-1",
            progress := some 50, current_step := some "denoising" })
        { type := UpdateType.progress, job_id := "job-1",
          progress := some 30, current_step := some "denoising" }).progress
      <
      (onGenerateMessage initGenerateState
        { type := UpdateType.progress, job_id := "job-1",
          progress := some 50, current_step := some "denoising" }).progress
    ∧
      (onGenerateMessage
        (onGenerateMessage initGenerateState
          { type := UpdateType.progress, job_id := "job-1",
            progress := some 50, current_step := some "denoising" })
        { type := UpdateType.progress, job_id := "job-1",
          progress := some 30, current_step := some "denoising" }).currentStep
      =
      (onGenerateMessage initGenerateState
        { type := UpdateType.progress, job_id := "job-1",
          progress := some 50, current_step := some "denoising" }).currentStep := by
  decide

/-- Claim C1 as amended: the displayed progress mirrors the received
events — it equals the latest progress value (default 0), so the
displayed sequence over a run of progress events is non-decreasing
exactly when the received values are non-decreasing from the starting
value (the backend invariant the spec asserts for the event stream, whose
source is not under src); and a successful terminal event always sets
the displayed progress to 100 and the status to completed. -/
theorem C1_amended :
    (∀ (s : GenClientState) (u : ProgressUpdate), u.type = UpdateType.progress →
        (onGenerateMessage s u).progress = u.progress.getD 0) ∧
      (∀ (s : GenClientState) (u : ProgressUpdate), u.type = UpdateType.complete →
        (onGenerateMessage s u).progress = 100 ∧
          (onGenerateMessage s u).status = GenStatus.completed) ∧
      (∀ (s : GenClientState) (us : List ProgressUpdate),
        (∀ u ∈ us, u.type = UpdateType.progress) →
        List.Chain (· ≤ ·) s.progress (us.map (fun u => u.progress.getD 0)) →
        List.Chain' (· ≤ ·) (progressTrace s us)) := by
  refine ⟨onGenerateMessage_progress, ?_, ?_⟩
  · intro s u h
    constructor <;> simp [onGenerateMessage, h]
  · intro s us hall hchain
    rw [progressTrace_eq s us hall]
    exact hchain

/-- Witness for the amended C1 on a concrete non-decreasing run of
progress events followed by a complete event. -/
theorem C1_amended_witness :
    (onGenerateMessage initGenerateState
        { type := UpdateType.complete, job_id := "job-1",
          output_path := some "out.mp4" }).progress = 100
    ∧
      List.Chain' (· ≤ ·) (progressTrace initGenerateState
        [{ type := UpdateType.progress, job_id := "job-1", progress := some 10 },
         { type := UpdateType.progress, job_id := "job-1", progress := some 40 }]) := by
  refine ⟨(C1_amended.2.1 initGenerateState
    { type := UpdateType.complete, job_id := "job-1",
      output_path := some "out.mp4" } (by decide)).1, ?_⟩
  refine C1_amended.2.2 initGenerateState
    [{ type := UpdateType.progress, job_id := "job-1", progress := some 10 },
     { type := UpdateType.progress, job_id := "job-1", progress := some 40 }]
    ?_ ?_
  · decide
  · simp [List.chain_cons, initGenerateState]
    norm_num

/-! ## Claim C6 -/

/-- Counterexample to claim C6: when the streaming connection ends with
a plain close and no terminal event was received, the close callback of
the generation page is the empty function, so a client that was in
processing stays in processing with no error set — neither a definitive
terminal state nor a ConnectionLost signal. -/
theorem C6_counterexample :
    clientRun
        { status := GenStatus.processing, progress := 40,
          currentStep := "denoising", errorMsg := none, videoPath := none }
        [WsEvent.wsClose]
      = { status := GenStatus.processing, progress := 40,
          currentStep := "denoising", errorMsg := none, videoPath := none }
    ∧
      isGenerating (clientRun
        { status := GenStatus.processing, progress := 40,
          currentStep := "denoising", errorMsg := none, videoPath := none }
        [WsEvent.wsClose]).status = true
    ∧
      (clientRun
        { status := GenStatus.processing, progress := 40,
          currentStep := "denoising", errorMsg := none, videoPath := none }
        [WsEvent.wsClose]).errorMsg = none := by
  decide

/-- Claim C6 as amended: a received terminal event does move the client
to the matching terminal status, and a transport error does set the
explicit "Connection lost" signal, but a plain close is a no-op on the
client state, so a client whose connection closes without a prior
terminal event keeps its previous, possibly non-terminal, status. -/
theorem C6_amended :
    (∀ s, clientStep s WsEvent.wsClose = s) ∧
      (∀ s, (clientStep s WsEvent.wsError).errorMsg = some "Connection lost" ∧
        (clientStep s WsEvent.wsError).status = s.status) ∧
      (∀ s u, u.type = UpdateType.complete →
        (clientStep s (WsEvent.message (some u))).status = GenStatus.completed) ∧
      (∀ s u, u.type = UpdateType.error →
        (clientStep s (WsEvent.message (some u))).status = GenStatus.error) := by
  refine ⟨fun s => rfl, fun s => ⟨rfl, rfl⟩, ?_, ?_⟩
  · intro s u h; simp [clientStep, onGenerateMessage, h]
  · intro s u h; simp [clientStep, onGenerateMessage, h]

/-- Witness for the amended C6 at concrete terminal and error events. -/
theorem C6_amended_witness :
    (clientStep initGenerateState
        (WsEvent.message (some { type := UpdateType.complete, job_id := "job-1" }))).status
      = GenStatus.completed
    ∧
      (clientStep initGenerateState
        (WsEvent.message (some
          { type := UpdateType.error, job_id := "job-1", errorMsg := some "boom" }))).status
        = GenStatus.error :=
  ⟨C6_amended.2.2.1 initGenerateState
      { type := UpdateType.complete, job_id := "job-1" } (by decide),
    C6_amended.2.2.2 initGenerateState
      { type := UpdateType.error, job_id := "job-1", errorMsg := some "boom" }
      (by decide)⟩

/-! ## Claim C7 -/

/-- Claim C7: message handling is a total function that never escapes
with an exception — a raw WebSocket message whose JSON does not parse is
caught and absorbed without touching the state, a parsed message of the
unhandled type "status" matches no branch and leaves the state alone,
and (spec-modelled, the backend parser source is not under src) an
unrecognized worker output line produces no snapshot delta and leaves
the derived phase state unchanged. -/
theorem C7_unrecognized_noop :
    (∀ s, clientStep s (WsEvent.message none) = s) ∧
      (∀ s u, u.type = UpdateType.status →
        clientStep s (WsEvent.message (some u)) = s) ∧
      (∀ (phase : Nat) (line : List Char), parseLine line = none →
        parserStep phase line = phase) := by
  refine ⟨fun s => rfl, ?_, ?_⟩
  · intro s u h; simp [clientStep, onGenerateMessage, h]
  · intro phase line h; simp [parserStep, h]

/-- Witness for C7: an unparseable frame, a status-typed message and a
free-text line with no phase keyword are all no-ops. -/
theorem C7_unrecognized_noop_witness :
    clientStep initGenerateState (WsEvent.message none) = initGenerateState
    ∧
      clientStep initGenerateState
        (WsEvent.message (some { type := UpdateType.status, job_id := "job-1" }))
        = initGenerateState
    ∧
      parserStep 1 "random worker chatter".data = 1 :=
  ⟨C7_unrecognized_noop.1 initGenerateState,
    C7_unrecognized_noop.2.1 initGenerateState
      { type := UpdateType.status, job_id := "job-1" } (by decide),
    C7_unrecognized_noop.2.2 1 "random worker chatter".data (by decide)⟩

/-! ## Claim C5 -/

/-- Claim C5: cancelling a non-terminal job produces the stopped
transition and reports it, cancelling an already terminal job is a no-op
that leaves the record exactly unchanged and reports no transition, and a
second cancel after any cancel is always such a silent no-op, so two
cancels produce the stopped transition exactly once (spec-modelled
registry; on the client, a successful stop response moves the training
form to status stopped). -/
theorem C5_cancel_idempotent :
    (∀ j : SpecJob, specTerminal j.status = false →
        (cancelJob j).2 = true ∧ (cancelJob j).1.status = SpecStatus.stopped) ∧
      (∀ j : SpecJob, specTerminal j.status = true → cancelJob j = (j, false)) ∧
      (∀ j : SpecJob, cancelJob (cancelJob j).1 = ((cancelJob j).1, false)) ∧
      (∀ (s : TrainClientState) (r : PlainResponse), r.ok = true →
        handleStopTraining s r = { s with status := TrainStatus.stopped }) := by
  refine ⟨?_, ?_, ?_, ?_⟩
  · intro j h; simp [cancelJob, h]
  · intro j h; simp [cancelJob, h]
  · intro j
    by_cases h : specTerminal j.status = true
    · simp [cancelJob, h]
    · simp only [Bool.not_eq_true] at h
      have h1 : cancelJob j = ({ j with status := SpecStatus.stopped }, true) := by
        simp [cancelJob, h]
      rw [h1]
      simp [cancelJob, specTerminal]
  · intro s r h; simp [handleStopTraining, stopTraining, h]

/-- Witness for C5 on a running job: the first cancel stops it, the
second changes nothing. -/
theorem C5_cancel_idempotent_witness :
    (cancelJob
        { id := "job-1", status := SpecStatus.running, progress := 40 / 100,
          currentStep := "denoising", outputPath := none, errorMsg := none }).2 = true
    ∧
      cancelJob
          (cancelJob
            { id := "job-1", status := SpecStatus.running, progress := 40 / 100,
              currentStep := "denoising", outputPath := none, errorMsg := none }).1
        = ((cancelJob
            { id := "job-1", status := SpecStatus.running, progress := 40 / 100,
              currentStep := "denoising", outputPath := none, errorMsg := none }).1,
           false) :=
  ⟨(C5_cancel_idempotent.1
      { id := "job-1", status := SpecStatus.running, progress := 40 / 100,
        currentStep := "denoising", outputPath := none, errorMsg := none }
      (by decide)).1,
    C5_cancel_idempotent.2.2.1
      { id := "job-1", status := SpecStatus.running, progress := 40 / 100,
        currentStep := "denoising", outputPath := none, errorMsg := none }⟩

/-! ## Claim C2 -/

/-- Claim C2 (spec-modelled broadcaster and registry, backend source not
under src): a subscriber that attaches to a known non-terminal job
receives, as the very first message of its stream, the current-state
snapshot synthesized from the registry record of that job, and every
live event comes strictly after it; a subscriber attaching to an already
terminal job receives the single synthetic terminal event reconstructed
from the registry. -/
theorem C2_snapshot_replay_first :
    (∀ (reg : SpecRegistry) (jobId : String) (j : SpecJob)
        (live : List ProgressUpdate), reg jobId = some j →
        specTerminal j.status = false →
        subscribe reg jobId live = some (snapshotEvent j :: live)) ∧
      (∀ (reg : SpecRegistry) (jobId : String) (j : SpecJob)
        (live : List ProgressUpdate), reg jobId = some j →
        specTerminal j.status = true →
        subscribe reg jobId live = some [terminalEvent j]) := by
  constructor
  · intro reg jobId j live hreg hterm
    simp [subscribe, hreg, hterm]
  · intro reg jobId j live hreg hterm
    simp [subscribe, hreg, hterm]

/-- Witness for C2 on a one-job registry holding a running record: the
subscribed stream opens with the synthesized snapshot of that record. -/
theorem C2_snapshot_replay_first_witness :
    subscribe
        (fun k => if k = "job-1" then
          some { id := "job-1", status := SpecStatus.running, progress := 40 / 100,
                 currentStep := "denoising", outputPath := none, errorMsg := none }
          else none)
        "job-1"
        [{ type := UpdateType.progress, job_id := "job-1", progress := some (50 / 100) }]
      = some
          (snapshotEvent
            { id := "job-1", status := SpecStatus.running, progress := 40 / 100,
              currentStep := "denoising", outputPath := none, errorMsg := none }
            ::
            [{ type := UpdateType.progress, job_id := "job-1",
               progress := some (50 / 100) }]) :=
  C2_snapshot_replay_first.1
    (fun k => if k = "job-1" then
      some { id := "job-1", status := SpecStatus.running, progress := 40 / 100,
             currentStep := "denoising", outputPath := none, errorMsg := none }
      else none)
    "job-1"
    { id := "job-1", status := SpecStatus.running, progress := 40 / 100,
      currentStep := "denoising", outputPath := none, errorMsg := none }
    [{ type := UpdateType.progress, job_id := "job-1", progress := some (50 / 100) }]
    (by simp) (by decide)

/-! ## Claim C8 -/

/-- Claim C8: submitting a validated request answers immediately with
the fresh job id and status pending while the registry gains a pending
entry (spec-modelled controller, backend source not under src), and the
client resolves that answer to the job; a submission that fails
validation creates no job state — the registry is returned untouched —
and the client surfaces the failure synchronously by throwing an error
carrying the detail of the response body. -/
theorem C8_submit_pending_or_throw (reg : SpecRegistry) (newId detail : String) :
    (submitJob reg true newId detail).2
        = StartResponse.success { job_id := newId, status := GenStatus.pending }
    ∧
      (submitJob reg true newId detail).1 newId
        = some { id := newId, status := SpecStatus.pending, progress := 0,
                 currentStep := "", outputPath := none, errorMsg := none }
    ∧
      startGeneration (submitJob reg true newId detail).2
        = Except.ok { job_id := newId, status := GenStatus.pending }
    ∧
      (submitJob reg false newId detail).1 = reg
    ∧
      startGeneration (submitJob reg false newId detail).2 = Except.error detail := by
  refine ⟨rfl, ?_, rfl, rfl, rfl⟩
  simp [submitJob]

/-! ## Claim C9 -/

/-- Rounding an integer plus one half floors back to that integer. -/
lemma jsRound_intCast (n : ℤ) : jsRound (n : ℚ) = n := by
  rw [jsRound, Int.floor_int_add]
  norm_num

/-- Claim C9: every frame count produced through the parameter panel is
of the shape 1 + 8k with 1 ≤ k ≤ 512 and therefore lies in the range 9
to 4097 — for every position of the frames slider (min 9, max 4097,
step 8, snapped through the rounding formula) and for every integer the
numeric input parses (snapped through the same formula and clamped into
the range). -/
theorem C9_num_frames_shape :
    (∀ v ∈ sliderFramePositions,
        ∃ m : ℤ, 1 ≤ m ∧ m ≤ 512 ∧ sliderFramesUpdate v = 1 + 8 * m ∧
          9 ≤ sliderFramesUpdate v ∧ sliderFramesUpdate v ≤ 4097) ∧
      (∀ v : ℤ,
        ∃ m : ℤ, 1 ≤ m ∧ m ≤ 512 ∧ inputFramesUpdate v = 1 + 8 * m ∧
          9 ≤ inputFramesUpdate v ∧ inputFramesUpdate v ≤ 4097) := by
  constructor
  · intro v hv
    rw [sliderFramePositions] at hv
    obtain ⟨k, hk, rfl⟩ := List.mem_map.mp hv
    rw [List.mem_range] at hk
    have harg : ((9 : ℚ) + 8 * (k : ℚ) - 1) / 8 = ((k : ℤ) + 1 : ℤ) := by
      push_cast
      ring
    have hupd : sliderFramesUpdate (9 + 8 * (k : ℚ)) = 1 + 8 * ((k : ℤ) + 1) := by
      rw [sliderFramesUpdate, harg, jsRound_intCast]
      ring
    refine ⟨(k : ℤ) + 1, by omega, by omega, hupd, by omega, by omega⟩
  · intro v
    set r : ℤ := jsRound (((v : ℚ) - 1) / 8) with hr
    have hupd : inputFramesUpdate v = max 9 (min 4097 (1 + 8 * r)) := by
      rw [inputFramesUpdate, ← hr]
      ring_nf
    refine ⟨max 1 (min 512 r), by omega, by omega, ?_, by omega, by omega⟩
    rw [hupd]
    omega

/-- Witness for C9 at the slider position 17 and the typed input 100:
both snap to a frame count of the shape 1 + 8k inside the range. -/
theorem C9_num_frames_shape_witness :
    (∃ m : ℤ, 1 ≤ m ∧ m ≤ 512 ∧ sliderFramesUpdate 17 = 1 + 8 * m ∧
        9 ≤ sliderFramesUpdate 17 ∧ sliderFramesUpdate 17 ≤ 4097)
    ∧
      (∃ m : ℤ, 1 ≤ m ∧ m ≤ 512 ∧ inputFramesUpdate 100 = 1 + 8 * m ∧
        9 ≤ inputFramesUpdate 100 ∧ inputFramesUpdate 100 ≤ 4097) := by
  constructor
  · have h17 : (17 : ℚ) ∈ sliderFramePositions := by
      rw [sliderFramePositions]
      exact List.mem_map.mpr ⟨1, List.mem_range.mpr (by norm_num), by norm_num⟩
    exact C9_num_frames_shape.1 17 h17
  · exact C9_num_frames_shape.2 100

/-! ## Claim C10 -/

/-- Claim C10: the listing calls absorb HTTP failures — listVideos,
listCheckpoints and listLoras return the empty list on every non-ok
response, and also when the ok response body lacks the expected array —
while the mutating deleteVideo throws the detail-bearing error on every
non-ok response. -/
theorem C10_listings_never_throw :
    (∀ r : GalleryResponse, r.ok = false → listVideos r = []) ∧
      (∀ r : CheckpointsResponse, r.ok = false → listCheckpoints r = []) ∧
      (∀ r : LorasResponse, r.ok = false → listLoras r = []) ∧
      (∀ r : GalleryResponse, r.ok = true → r.videos = none → listVideos r = []) ∧
      (∀ r : CheckpointsResponse, r.ok = true → r.checkpoints = none →
        listCheckpoints r = []) ∧
      (∀ r : LorasResponse, r.ok = true → r.loras = none → listLoras r = []) ∧
      (∀ r : PlainResponse, r.ok = false →
        deleteVideo r = Except.error (r.detail.getD "Failed to delete video")) := by
  refine ⟨?_, ?_, ?_, ?_, ?_, ?_, ?_⟩
  · intro r h; simp [listVideos, h]
  · intro r h; simp [listCheckpoints, h]
  · intro r h; simp [listLoras, h]
  · intro r h hv; simp [listVideos, h, hv]
  · intro r h hv; simp [listCheckpoints, h, hv]
  · intro r h hv; simp [listLoras, h, hv]
  · intro r h; simp [deleteVideo, h]

/-- Witness for C10: a failed gallery fetch lists nothing, a failed
checkpoint and LoRA fetch list nothing, an ok body without the array
lists nothing, and a failed delete throws its detail. -/
theorem C10_listings_never_throw_witness :
    listVideos { ok := false, videos := none } = []
    ∧
      listCheckpoints { ok := false, checkpoints := some ["c1"] } = []
    ∧
      listLoras { ok := false, loras := none } = []
    ∧
      listVideos { ok := true, videos := none } = []
    ∧
      deleteVideo { ok := false, detail := some "not found" }
        = Except.error "not found" :=
  ⟨C10_listings_never_throw.1 { ok := false, videos := none } rfl,
    C10_listings_never_throw.2.1 { ok := false, checkpoints := some ["c1"] } rfl,
    C10_listings_never_throw.2.2.1 { ok := false, loras := none } rfl,
    C10_listings_never_throw.2.2.2.1 { ok := true, videos := none } rfl rfl,
    C10_listings_never_throw.2.2.2.2.2.2 { ok := false, detail := some "not found" } rfl⟩

end MlxVideo
